import Mathlib

/-!
Shallow embedding of `ons_processing/parse_files.py`: per-dataset transform
functions that load a CSV file into a table, select and rename columns,
filter or aggregate rows, and drop rows lacking the `la_code` join key.

Tables (`DF`) model pandas DataFrames: an ordered column-name list plus an
ordered list of rows, each row an association list from column name to an
optional scalar (`none` models NaN/missing).  CSV files are modelled as a
header plus string records; `read_csv` models pandas' default reading
(empty strings and the default NA tokens become missing, columns whose
non-missing entries all parse as decimal numbers become numeric).
-/

attribute [local semireducible] Rat.add Rat.mul Rat.inv Rat.sub Rat.ofScientific

/-- A scalar value in a table cell: a string or an (exact) number. -/
inductive Val where
  | str (s : String)
  | num (q : Rat)
deriving DecidableEq, Repr

/-- A cell is a scalar or missing (pandas NaN). -/
abbrev Cell := Option Val

/-- A row: association list from column name to cell value. -/
abbrev Row := List (String × Cell)

/-- Cell of column `c` in row `r`; missing columns read as NaN. -/
def Row.get (r : Row) (c : String) : Cell :=
  match r.find? (fun p => p.1 == c) with
  | some p => p.2
  | none => none

/-- An in-memory table: ordered columns and ordered rows (a DataFrame). -/
structure DF where
  cols : List String
  rows : List Row
deriving DecidableEq, Repr

/-- A CSV file: header line and data records (all fields as raw strings). -/
structure Csv where
  header : List String
  records : List (List String)
deriving DecidableEq

/-- A directory of CSV files, keyed by file name. -/
abbrev Dir := List (String × Csv)

/-- The default pandas NA tokens: fields reading as missing. -/
def naValues : List String :=
  ["", "#N/A", "#N/A N/A", "#NA", "-1.#IND", "-1.#QNAN", "-NaN", "-nan",
   "1.#IND", "1.#QNAN", "<NA>", "N/A", "NA", "NULL", "NaN", "n/a", "nan", "null"]

/-- Value of one decimal digit character. -/
def digitChar? (c : Char) : Option Nat :=
  if c.isDigit then some (c.toNat - Char.toNat '0') else none

/-- Digits of a numeral string, as a natural number (none if empty or non-digit). -/
def digitsToNat? : List Char → Option Nat
  | [] => none
  | [c] => digitChar? c
  | c :: cs => do
      let hi ← digitChar? c
      let lo ← digitsToNat? cs
      pure (hi * 10 ^ cs.length + lo)

/-- Split a character list at the decimal points. -/
def splitOnDot : List Char → List (List Char)
  | [] => [[]]
  | c :: cs =>
      match splitOnDot cs with
      | [] => [[]]
      | h :: t => if c = '.' then [] :: h :: t else (c :: h) :: t

/-- Parse an unsigned decimal numeral (optional fractional part) exactly. -/
def parseRatCore (l : List Char) : Option Rat :=
  match splitOnDot l with
  | [i] => (digitsToNat? i).map (fun n => (n : Rat))
  | [i, f] =>
      if i = [] then (digitsToNat? f).map (fun nf => mkRat nf (10 ^ f.length))
      else if f = [] then (digitsToNat? i).map (fun n => (n : Rat))
      else do
        let ni ← digitsToNat? i
        let nf ← digitsToNat? f
        pure (mkRat (ni * 10 ^ f.length + nf) (10 ^ f.length))
  | _ => none

/-- Parse a decimal numeral (optional sign, optional fractional part) exactly. -/
def parseRat? (s : String) : Option Rat :=
  match s.data with
  | '-' :: rest => (parseRatCore rest).map (fun q => -q)
  | '+' :: rest => parseRatCore rest
  | l => parseRatCore l

/-- Read one CSV field: NA tokens become missing; in a numeric column the
field is parsed as a number, otherwise kept as a string. -/
def readCell (numeric : Bool) (s : String) : Cell :=
  if naValues.contains s then none
  else if numeric then (parseRat? s).map Val.num
  else some (Val.str s)

/-- pandas dtype inference: a column is numeric when every record's field
there is an NA token or parses as a decimal number. -/
def colIsNumeric (records : List (List String)) (j : Nat) : Bool :=
  records.all (fun rec => naValues.contains (rec.getD j "") || (parseRat? (rec.getD j "")).isSome)

/-- `pd.read_csv`: columns from the header; each record becomes a row, short
records padded with missing fields. -/
def read_csv (c : Csv) : DF :=
  { cols := c.header,
    rows := c.records.map (fun rec =>
      c.header.enum.map (fun p =>
        (p.2, readCell (colIsNumeric c.records p.1) (rec.getD p.1 "")))) }

/-- Field of a CSV record under a named header column. -/
def csvField (c : Csv) (rec : List String) (name : String) : String :=
  rec.getD (c.header.indexOf name) ""

/-- We will join all data on this key (source constant `LA_CODE`). -/
def LA_CODE : String := "la_code"

/-- Source constant `LA_NAME`. -/
def LA_NAME : String := "la_name"

/-- `load_df`: read the named CSV file from the directory into a table;
a missing file is an error (FileNotFoundError). -/
def load_df (d : Dir) (file_name : String) : Except String DF :=
  match d.lookup file_name with
  | some c => .ok (read_csv c)
  | none => .error "FileNotFoundError"

/-- `subset_rename_df`: subset the table on the keys of `name_dict` (in the
dict's order) and rename those columns by the same dict.  A key absent from
the table's columns is an error (pandas KeyError). -/
def subset_rename_df (df : DF) (name_dict : List (String × String)) : Except String DF :=
  if name_dict.all (fun p => df.cols.contains p.1) then
    .ok { cols := name_dict.map (fun p => p.2),
          rows := df.rows.map (fun r => name_dict.map (fun p => (p.2, r.get p.1))) }
  else .error "KeyError"

/-- `df.dropna(subset=[c])`: keep the rows whose cell in column `c` is not
missing; an absent column is an error. -/
def dropna (df : DF) (c : String) : Except String DF :=
  if df.cols.contains c then
    .ok { df with rows := df.rows.filter (fun r => !(r.get c == (none : Cell))) }
  else .error "KeyError"

/-- Keep the first occurrence of each element (later duplicates removed). -/
def firstDedup {α : Type} [DecidableEq α] : List α → List α
  | [] => []
  | a :: l => a :: (firstDedup l).filter (fun x => x ≠ a)

/-- Numeric reading of a cell for summation: pandas `sum` skips missing
values, and non-numeric cells are out of scope (they contribute nothing). -/
def cellNum : Cell → Rat
  | some (Val.num q) => q
  | _ => 0

/-- Sum of a row's cells over the named columns (`df[cols].sum(axis=1)`). -/
def rowSum (r : Row) (cs : List String) : Rat :=
  (cs.map (fun c => cellNum (r.get c))).sum

/-- Boolean order on scalars used to sort group keys (strings and numbers
each ordered naturally; mixed comparisons never arise in scoped inputs). -/
def Val.leB : Val → Val → Bool
  | Val.num a, Val.num b => decide (a ≤ b)
  | Val.str a, Val.str b => decide (a ≤ b)
  | Val.num _, Val.str _ => true
  | Val.str _, Val.num _ => false

/-- Order on cells: missing sorts first. -/
def Cell.leB : Cell → Cell → Bool
  | none, _ => true
  | some _, none => false
  | some a, some b => Val.leB a b

/-- Sort relation on cells for `groupby(sort=True)`. -/
def cellLe (a b : Cell) : Prop := Cell.leB a b = true

instance : DecidableRel cellLe := fun a b =>
  inferInstanceAs (Decidable (Cell.leB a b = true))

/-- Lexicographic sort relation on key pairs. -/
def pairLe (a b : Cell × Cell) : Prop :=
  (if a.1 == b.1 then Cell.leB a.2 b.2 else Cell.leB a.1 b.1) = true

instance : DecidableRel pairLe := fun _ _ =>
  inferInstanceAs (Decidable (_ = true))

/-- `df.groupby(keyCol)[valCol].sum().reset_index()`: drop rows with a
missing key, one output row per distinct key in sorted order, the value
column summed within each group. -/
def groupbySum (keyCol valCol : String) (df : DF) : DF :=
  let kept := df.rows.filter (fun r => !(r.get keyCol == (none : Cell)))
  let keys := (firstDedup (kept.map (fun r => r.get keyCol))).insertionSort cellLe
  { cols := [keyCol, valCol],
    rows := keys.map (fun k =>
      [(keyCol, k),
       (valCol, some (Val.num
         (((kept.filter (fun r => r.get keyCol == k)).map
             (fun r => cellNum (r.get valCol))).sum)))]) }

/-- `df.groupby([k1, k2])[vals].sum().reset_index()`: drop rows with a
missing key, one output row per distinct key pair in sorted order, each
value column summed within its group. -/
def groupbySum2 (k1 k2 : String) (vals : List String) (df : DF) : DF :=
  let kept := df.rows.filter (fun r =>
    !(r.get k1 == (none : Cell)) && !(r.get k2 == (none : Cell)))
  let keys := (firstDedup (kept.map (fun r => (r.get k1, r.get k2)))).insertionSort pairLe
  { cols := [k1, k2] ++ vals,
    rows := keys.map (fun p =>
      [(k1, p.1), (k2, p.2)] ++ vals.map (fun v =>
        (v, some (Val.num
          (((kept.filter (fun r => (r.get k1, r.get k2) == p)).map
              (fun r => cellNum (r.get v))).sum))))) }

/-- The (la_code, wellbeing_measure) key of a projected wellbeing row. -/
def wbKey (r : Row) : Cell × Cell :=
  (r.get "la_code", r.get "wellbeing_measure")

/-- `drop_duplicates(subset=["la_code", "wellbeing_measure"])` with an
accumulator of keys already seen: keep first occurrences in row order. -/
def dedupPairsAux : List Row → List (Cell × Cell) → List Row
  | [], _ => []
  | r :: rs, seen =>
      if wbKey r ∈ seen then dedupPairsAux rs seen
      else r :: dedupPairsAux rs (wbKey r :: seen)

/-- `drop_duplicates(subset=["la_code", "wellbeing_measure"])`. -/
def dedupPairs (rows : List Row) : List Row := dedupPairsAux rows []

/-- Wide-table cell: score of the first row carrying the given key pair. -/
def pivotLookup (rows : List Row) (i m : Cell) : Cell :=
  match rows.find? (fun r => wbKey r == (i, m)) with
  | some r => r.get "wellbeing_score"
  | none => none

/-- Column label from a measure cell (measure values become column names). -/
def cellColName : Cell → String
  | some (Val.str s) => s
  | some (Val.num q) => toString q
  | none => "nan"

/-- `pivot(index="la_code", columns="wellbeing_measure",
values="wellbeing_score").reset_index()`: errors (pandas ValueError) if an
(index, columns) pair repeats; otherwise one row per distinct la_code, one
column per distinct measure.  NaN index labels are kept (pandas `unstack`
inserts the level's NA value for code -1). -/
def pivotDF (df : DF) : Except String DF :=
  if (df.rows.map wbKey).Nodup then
    let idx := firstDedup (df.rows.map (fun r => r.get "la_code"))
    let meas := firstDedup (df.rows.map (fun r => r.get "wellbeing_measure"))
    .ok { cols := "la_code" :: meas.map cellColName,
          rows := idx.map (fun i =>
            ("la_code", i) :: meas.map (fun m => (cellColName m, pivotLookup df.rows i m))) }
  else .error "ValueError"

/-- Rename spec of `parse_wellbeing`. -/
def wellbeing_cols : List (String × String) :=
  [("V4_3", "wellbeing_score"),
   ("administrative-geography", LA_CODE),
   ("measure-of-wellbeing", "wellbeing_measure")]

/-- The row filter of `parse_wellbeing`. -/
def wellbeingKeep (r : Row) : Bool :=
  r.get "wellbeing-estimate" == some (Val.str "average-mean") &&
    r.get "Time" == some (Val.str "2020-21")

/-- `df.loc[(df["wellbeing-estimate"] == "average-mean") & (df.Time == "2020-21")]`:
errors if a filter column is absent. -/
def wellbeingFilter (df : DF) : Except String DF :=
  if df.cols.contains "wellbeing-estimate" && df.cols.contains "Time" then
    .ok { df with rows := df.rows.filter wellbeingKeep }
  else .error "KeyError"

/-- `parse_wellbeing` after loading: filter, subset-rename, drop duplicate
(la_code, measure) pairs, pivot to wide form. -/
def wellbeingCore (df : DF) : Except String DF := do
  let df ← wellbeingFilter df
  let sub ← subset_rename_df df wellbeing_cols
  pivotDF { sub with rows := dedupPairs sub.rows }

/-- `parse_wellbeing`. -/
def parse_wellbeing (d : Dir) : Except String DF := do
  let df ← load_df d "wellbeing.csv"
  wellbeingCore df

/-- Per-year age columns summed into `child` (ages 0 through 18). -/
def ageChildCols : List String := (List.range 19).map toString

/-- Per-year age columns summed into `adult` (ages 19 through 64). -/
def ageAdultCols : List String := (List.range' 19 46).map toString

/-- Age columns summed into `elderly` (ages 65 through 89, plus "90+"). -/
def ageElderlyCols : List String := (List.range' 65 25).map toString ++ ["90+"]

/-- `df.loc[:, group] = df[col_subset].sum(axis=1)` for the three groups:
errors if an age column is absent, otherwise appends the three derived
columns, each row's value the sum of its per-year cells. -/
def addAgeGroups (df : DF) : Except String DF :=
  if (ageChildCols ++ ageAdultCols ++ ageElderlyCols).all df.cols.contains then
    .ok { cols := df.cols ++ (["child", "adult", "elderly"].filter
            (fun c => !(df.cols.contains c))),
          rows := df.rows.map (fun r =>
            ("child", some (Val.num (rowSum r ageChildCols))) ::
            ("adult", some (Val.num (rowSum r ageAdultCols))) ::
            ("elderly", some (Val.num (rowSum r ageElderlyCols))) :: r) }
  else .error "KeyError"

/-- Rename spec of `parse_population_age`. -/
def population_cols : List (String × String) :=
  [("LA Code (2021 boundaries)", LA_CODE),
   ("LA name (2021 boundaries)", LA_NAME),
   ("Ward Code 1", "ward_code"),
   ("Ward Name 1", "ward_name"),
   ("All Ages", "total_population"),
   ("child", "child"), ("adult", "adult"), ("elderly", "elderly")]

/-- `parse_population_age` after loading: derive age-group columns,
subset-rename, then sum the four totals grouped by (la_code, la_name). -/
def populationCore (df : DF) : Except String DF := do
  let df ← addAgeGroups df
  let sub ← subset_rename_df df population_cols
  pure (groupbySum2 LA_CODE LA_NAME ["total_population", "child", "adult", "elderly"] sub)

/-- `parse_population_age`. -/
def parse_population_age (d : Dir) : Except String DF := do
  let df ← load_df d "population_by_age.csv"
  populationCore df

/-- Rename spec of `parse_rental_summary`. -/
def rental_cols : List (String × String) :=
  [("Area Code1", LA_CODE),
   ("Count of rents", "rent_count"),
   ("Median", "median_rent"),
   ("Mean", "mean_rent")]

/-- `parse_rental_summary` after loading: subset-rename then drop rows with
a missing la_code (those are aggregate statistics, e.g. for England). -/
def rentalCore (df : DF) : Except String DF := do
  let sub ← subset_rename_df df rental_cols
  dropna sub LA_CODE

/-- `parse_rental_summary`. -/
def parse_rental_summary (d : Dir) : Except String DF := do
  let df ← load_df d "rental.csv"
  rentalCore df

/-- Rename spec of `parse_crime`. -/
def crime_cols : List (String × String) :=
  [("Local Authority code", LA_CODE),
   ("Household figures (mid-2019) - rounded to 100", "num_households"),
   ("Total recorded crime\n (excluding fraud)", "total_crime"),
   ("Residential burglary (per 1,000 household)", "burgalry_per_household")]

/-- `parse_crime` after loading: subset-rename then drop missing la_code. -/
def crimeCore (df : DF) : Except String DF := do
  let sub ← subset_rename_df df crime_cols
  dropna sub LA_CODE

/-- `parse_crime`. -/
def parse_crime (d : Dir) : Except String DF := do
  let df ← load_df d "crime.csv"
  crimeCore df

/-- Rename spec of `parse_property_sales`. -/
def property_sales_cols : List (String × String) :=
  [("Local authority code", LA_CODE),
   ("Ward code", "ward_code"),
   ("Year ending Jun 2021", "num_sold")]

/-- `parse_property_sales` after loading: subset-rename, drop missing
la_code, then sum `num_sold` grouped over la codes. -/
def salesCore (df : DF) : Except String DF := do
  let sub ← subset_rename_df df property_sales_cols
  let sub ← dropna sub LA_CODE
  pure (groupbySum LA_CODE "num_sold" sub)

/-- `parse_property_sales`. -/
def parse_property_sales (d : Dir) : Except String DF := do
  let df ← load_df d "property_sales.csv"
  salesCore df

/-- Rename spec of `parse_property_prices` (note the trailing space in the
source column name, as in the file). -/
def property_prices_cols : List (String × String) :=
  [("Local authority code ", LA_CODE),
   ("Year ending Jun 2021", "property_price")]

/-- `parse_property_prices` after loading. -/
def pricesCore (df : DF) : Except String DF := do
  let sub ← subset_rename_df df property_prices_cols
  dropna sub LA_CODE

/-- `parse_property_prices`. -/
def parse_property_prices (d : Dir) : Except String DF := do
  let df ← load_df d "house_prices.csv"
  pricesCore df

/-- Rename spec of `parse_earnings_to_house_price`. -/
def earnings_cols : List (String × String) :=
  [("Code", LA_CODE),
   ("2020", "earnings_house_price_ratio")]

/-- `parse_earnings_to_house_price` after loading. -/
def earningsCore (df : DF) : Except String DF := do
  let sub ← subset_rename_df df earnings_cols
  dropna sub LA_CODE

/-- `parse_earnings_to_house_price`. -/
def parse_earnings_to_house_price (d : Dir) : Except String DF := do
  let df ← load_df d "earnings_price_ratio.csv"
  earningsCore df

/-!  ### General lemmas about the embedding's building blocks  -/

lemma mem_firstDedup {α : Type} [DecidableEq α] (x : α) (l : List α) :
    x ∈ firstDedup l ↔ x ∈ l := by
  induction l with
  | nil => simp [firstDedup]
  | cons a l ih =>
      by_cases hx : x = a
      · subst hx; simp [firstDedup]
      · simp [firstDedup, List.mem_filter, hx, ih]

lemma nodup_firstDedup {α : Type} [DecidableEq α] (l : List α) :
    (firstDedup l).Nodup := by
  induction l with
  | nil => simp [firstDedup]
  | cons a l ih =>
      refine List.Nodup.cons ?_ (List.Nodup.filter _ ih)
      intro hmem
      rcases List.mem_filter.mp hmem with ⟨-, hne⟩
      simp at hne

lemma length_firstDedup_le {α : Type} [DecidableEq α] (l : List α) :
    (firstDedup l).length ≤ l.length := by
  induction l with
  | nil => simp [firstDedup]
  | cons a l ih =>
      simpa [firstDedup] using
        Nat.succ_le_succ (le_trans (List.length_filter_le _ _) ih)

lemma subset_rename_ok (df : DF) (nd : List (String × String))
    (h : ∀ p ∈ nd, p.1 ∈ df.cols) :
    subset_rename_df df nd =
      .ok { cols := nd.map (fun p => p.2),
            rows := df.rows.map (fun r => nd.map (fun p => (p.2, r.get p.1))) } := by
  have hall : (nd.all fun p => df.cols.contains p.1) = true := by
    rw [List.all_eq_true]
    intro p hp
    simpa using h p hp
  simp only [subset_rename_df]
  rw [if_pos hall]

lemma subset_rename_missing (df : DF) (nd : List (String × String))
    (h : ∃ p ∈ nd, p.1 ∉ df.cols) : subset_rename_df df nd = .error "KeyError" := by
  obtain ⟨p, hp, hnc⟩ := h
  have hall : (nd.all fun q => df.cols.contains q.1) = false := by
    rw [List.all_eq_false]
    exact ⟨p, hp, by simpa using hnc⟩
  simp only [subset_rename_df]
  rw [if_neg]
  rw [hall]
  simp

lemma load_df_lookup (d : Dir) (n : String) (c : Csv) (h : d.lookup n = some c) :
    load_df d n = .ok (read_csv c) := by
  simp [load_df, h]

lemma exceptBindOk {α β : Type} (a : α) (f : α → Except String β) :
    (Except.ok a >>= f) = f a := rfl

lemma exceptBindErr {α β : Type} (e : String) (f : α → Except String β) :
    ((Except.error e : Except String α) >>= f) = Except.error e := rfl

lemma wellbeingFilter_cols (df df' : DF) (h : wellbeingFilter df = .ok df') :
    df'.cols = df.cols := by
  unfold wellbeingFilter at h
  split at h
  · cases h; rfl
  · cases h

lemma addAgeGroups_cols (df df' : DF) (h : addAgeGroups df = .ok df') :
    df'.cols = df.cols ++
      (["child", "adult", "elderly"].filter (fun c => !(df.cols.contains c))) := by
  unfold addAgeGroups at h
  split at h
  · cases h; rfl
  · cases h

lemma exceptMapOk {α β : Type} (f : α → β) (a : α) :
    (f <$> (Except.ok a : Except String α)) = .ok (f a) := rfl

lemma dropna_ok_rows (df out : DF) (c : String) (h : dropna df c = .ok out) :
    out.rows = df.rows.filter (fun r => !(r.get c == (none : Cell))) := by
  unfold dropna at h
  split at h
  · cases h; rfl
  · cases h

lemma subset_ok_rows (df out : DF) (nd : List (String × String))
    (h : subset_rename_df df nd = .ok out) :
    out.rows = df.rows.map (fun r => nd.map (fun p => (p.2, r.get p.1))) := by
  unfold subset_rename_df at h
  split at h
  · cases h; rfl
  · cases h

lemma row_get_head (c : String) (v : Cell) (rest : Row) :
    Row.get ((c, v) :: rest) c = v := by
  simp [Row.get, List.find?_cons]

lemma row_get_cons_ne (c c' : String) (v : Cell) (rest : Row) (h : (c' == c) = false) :
    Row.get ((c', v) :: rest) c = Row.get rest c := by
  simp [Row.get, List.find?_cons, h]

lemma parse_ok_core (core : DF → Except String DF) (d : Dir) (n : String) (out : DF)
    (h : ((load_df d n) >>= core) = .ok out) :
    ∃ c, d.lookup n = some c ∧ core (read_csv c) = .ok out := by
  cases hl : d.lookup n with
  | none =>
      simp only [load_df, hl, exceptBindErr] at h
      cases h
  | some c =>
      simp only [load_df, hl, exceptBindOk] at h
      exact ⟨c, rfl, h⟩

lemma subsetDropna_props (df : DF) (nd : List (String × String)) (out : DF)
    (h : ((subset_rename_df df nd) >>= fun sub => dropna sub LA_CODE) = .ok out) :
    (∀ r ∈ out.rows, r.get LA_CODE ≠ none) ∧ out.rows.length ≤ df.rows.length := by
  cases hs : subset_rename_df df nd with
  | error e => rw [hs, exceptBindErr] at h; cases h
  | ok sub =>
      rw [hs, exceptBindOk] at h
      have hr := dropna_ok_rows _ _ _ h
      constructor
      · intro r hrmem
        rw [hr] at hrmem
        have hb := (List.mem_filter.mp hrmem).2
        simpa using hb
      · rw [hr]
        calc (sub.rows.filter (fun r => !(r.get LA_CODE == (none : Cell)))).length
            ≤ sub.rows.length := List.length_filter_le _ _
          _ = df.rows.length := by rw [subset_ok_rows _ _ _ hs]; simp

lemma groupbySum_nonnull (keyCol valCol : String) (df : DF) :
    ∀ r ∈ (groupbySum keyCol valCol df).rows, r.get keyCol ≠ none := by
  intro r hr
  simp only [groupbySum] at hr
  rcases List.mem_map.mp hr with ⟨k, hk, rfl⟩
  rw [row_get_head]
  rw [List.mem_insertionSort, mem_firstDedup] at hk
  rcases List.mem_map.mp hk with ⟨r0, hr0, hget⟩
  have hb := (List.mem_filter.mp hr0).2
  rw [hget] at hb
  simpa using hb

lemma groupbySum_length_le (keyCol valCol : String) (df : DF) :
    (groupbySum keyCol valCol df).rows.length ≤ df.rows.length := by
  simp only [groupbySum, List.length_map]
  calc ((firstDedup ((df.rows.filter (fun r => !(r.get keyCol == (none : Cell)))).map
          (fun r => r.get keyCol))).insertionSort cellLe).length
      = (firstDedup ((df.rows.filter (fun r => !(r.get keyCol == (none : Cell)))).map
          (fun r => r.get keyCol))).length :=
        (List.perm_insertionSort cellLe _).length_eq
    _ ≤ ((df.rows.filter (fun r => !(r.get keyCol == (none : Cell)))).map
          (fun r => r.get keyCol)).length := length_firstDedup_le _
    _ ≤ df.rows.length := by
        rw [List.length_map]; exact List.length_filter_le _ _

lemma groupbySum2_nonnull (k1 k2 : String) (vals : List String) (df : DF) :
    ∀ r ∈ (groupbySum2 k1 k2 vals df).rows, r.get k1 ≠ none := by
  intro r hr
  simp only [groupbySum2] at hr
  rcases List.mem_map.mp hr with ⟨p, hp, rfl⟩
  rw [List.cons_append, row_get_head]
  rw [List.mem_insertionSort, mem_firstDedup] at hp
  rcases List.mem_map.mp hp with ⟨r0, hr0, hget⟩
  have hb := (List.mem_filter.mp hr0).2
  have hb1 : !(r0.get k1 == (none : Cell)) := by
    cases hone : (r0.get k1 == (none : Cell)) <;> simp [hone] at hb ⊢
  have : p.1 = r0.get k1 := by rw [← hget]
  rw [this]
  simpa using hb1

lemma salesCore_props (df out : DF) (h : salesCore df = .ok out) :
    (∀ r ∈ out.rows, r.get LA_CODE ≠ none) ∧ out.rows.length ≤ df.rows.length := by
  simp only [salesCore] at h
  cases hs : subset_rename_df df property_sales_cols with
  | error e => rw [hs, exceptBindErr] at h; cases h
  | ok sub =>
      rw [hs, exceptBindOk] at h
      cases hd : dropna sub LA_CODE with
      | error e => rw [hd, exceptBindErr] at h; cases h
      | ok sub2 =>
          rw [hd, exceptBindOk] at h
          have hout : out = groupbySum LA_CODE "num_sold" sub2 := by
            cases h; rfl
          subst hout
          refine ⟨groupbySum_nonnull _ _ _, ?_⟩
          calc (groupbySum LA_CODE "num_sold" sub2).rows.length
              ≤ sub2.rows.length := groupbySum_length_le _ _ _
            _ ≤ sub.rows.length := by
                rw [dropna_ok_rows _ _ _ hd]; exact List.length_filter_le _ _
            _ = df.rows.length := by rw [subset_ok_rows _ _ _ hs]; simp

lemma populationCore_nonnull (df out : DF) (h : populationCore df = .ok out) :
    ∀ r ∈ out.rows, r.get LA_CODE ≠ none := by
  simp only [populationCore] at h
  cases ha : addAgeGroups df with
  | error e => rw [ha, exceptBindErr] at h; cases h
  | ok df' =>
      rw [ha, exceptBindOk] at h
      cases hs : subset_rename_df df' population_cols with
      | error e => rw [hs, exceptBindErr] at h; cases h
      | ok sub =>
          rw [hs, exceptBindOk] at h
          have hout : out =
              groupbySum2 LA_CODE LA_NAME ["total_population", "child", "adult", "elderly"] sub := by
            cases h; rfl
          subst hout
          exact groupbySum2_nonnull _ _ _ _

/-- The wellbeing input exhibiting a missing join key that survives the
pivot: one filtered-in row whose geography field is empty. -/
def nullKeyDir : Dir :=
  [("wellbeing.csv",
    { header := ["wellbeing-estimate", "Time", "administrative-geography",
                 "measure-of-wellbeing", "V4_3"],
      records := [["average-mean", "2020-21", "", "happiness", "7.2"]] })]

/-- The wellbeing output on `nullKeyDir`: its only row has a missing la_code. -/
def nullKeyOut : DF :=
  { cols := ["la_code", "happiness"],
    rows := [[("la_code", none), ("happiness", some (Val.num (36 / 5)))]] }

/-- Counterexample to claim C1 as stated: `parse_wellbeing` has no null-key
drop step, and the pivot keeps a missing index label, so a raw wellbeing
table with an average-mean 2020-21 row whose geography field is empty
yields an output row whose la_code is missing. -/
theorem C1_counterexample :
    parse_wellbeing nullKeyDir = .ok nullKeyOut ∧
    nullKeyOut.rows.length = 1 ∧
    (nullKeyOut.rows.getD 0 []).get LA_CODE = none :=
  ⟨by rfl, by rfl, by rfl⟩

/-- Claim C1 (amended): for the six transforms other than `parse_wellbeing`
every output row has a non-missing la_code (the five dropna transforms drop
null keys, and the population groupby drops null keys), and for the five
transforms with a null-key drop step the output row count is at most the
input row count.  (`parse_wellbeing` is excluded: it can emit a row with a
missing la_code, see the counterexample.) -/
theorem C1_key_invariants :
    (∀ (d : Dir) (out : DF), parse_population_age d = .ok out →
        ∀ r ∈ out.rows, r.get LA_CODE ≠ none) ∧
    (∀ (d : Dir) (out : DF), parse_rental_summary d = .ok out →
        ∀ r ∈ out.rows, r.get LA_CODE ≠ none) ∧
    (∀ (d : Dir) (out : DF), parse_crime d = .ok out →
        ∀ r ∈ out.rows, r.get LA_CODE ≠ none) ∧
    (∀ (d : Dir) (out : DF), parse_property_sales d = .ok out →
        ∀ r ∈ out.rows, r.get LA_CODE ≠ none) ∧
    (∀ (d : Dir) (out : DF), parse_property_prices d = .ok out →
        ∀ r ∈ out.rows, r.get LA_CODE ≠ none) ∧
    (∀ (d : Dir) (out : DF), parse_earnings_to_house_price d = .ok out →
        ∀ r ∈ out.rows, r.get LA_CODE ≠ none) ∧
    (∀ (d : Dir) (c : Csv) (out : DF), d.lookup "rental.csv" = some c →
        parse_rental_summary d = .ok out → out.rows.length ≤ c.records.length) ∧
    (∀ (d : Dir) (c : Csv) (out : DF), d.lookup "crime.csv" = some c →
        parse_crime d = .ok out → out.rows.length ≤ c.records.length) ∧
    (∀ (d : Dir) (c : Csv) (out : DF), d.lookup "property_sales.csv" = some c →
        parse_property_sales d = .ok out → out.rows.length ≤ c.records.length) ∧
    (∀ (d : Dir) (c : Csv) (out : DF), d.lookup "house_prices.csv" = some c →
        parse_property_prices d = .ok out → out.rows.length ≤ c.records.length) ∧
    (∀ (d : Dir) (c : Csv) (out : DF), d.lookup "earnings_price_ratio.csv" = some c →
        parse_earnings_to_house_price d = .ok out → out.rows.length ≤ c.records.length) := by
  have hlen : ∀ c : Csv, (read_csv c).rows.length = c.records.length := by
    intro c; simp [read_csv]
  refine ⟨?_, ?_, ?_, ?_, ?_, ?_, ?_, ?_, ?_, ?_, ?_⟩
  · intro d out h
    obtain ⟨c, -, hc⟩ := parse_ok_core populationCore d "population_by_age.csv" out h
    exact populationCore_nonnull _ _ hc
  · intro d out h
    obtain ⟨c, -, hc⟩ := parse_ok_core rentalCore d "rental.csv" out h
    exact (subsetDropna_props _ rental_cols _ hc).1
  · intro d out h
    obtain ⟨c, -, hc⟩ := parse_ok_core crimeCore d "crime.csv" out h
    exact (subsetDropna_props _ crime_cols _ hc).1
  · intro d out h
    obtain ⟨c, -, hc⟩ := parse_ok_core salesCore d "property_sales.csv" out h
    exact (salesCore_props _ _ hc).1
  · intro d out h
    obtain ⟨c, -, hc⟩ := parse_ok_core pricesCore d "house_prices.csv" out h
    exact (subsetDropna_props _ property_prices_cols _ hc).1
  · intro d out h
    obtain ⟨c, -, hc⟩ := parse_ok_core earningsCore d "earnings_price_ratio.csv" out h
    exact (subsetDropna_props _ earnings_cols _ hc).1
  · intro d c out hl h
    simp only [parse_rental_summary, load_df_lookup d _ c hl, exceptBindOk] at h
    have := (subsetDropna_props _ rental_cols _ h).2
    rwa [hlen c] at this
  · intro d c out hl h
    simp only [parse_crime, load_df_lookup d _ c hl, exceptBindOk] at h
    have := (subsetDropna_props _ crime_cols _ h).2
    rwa [hlen c] at this
  · intro d c out hl h
    simp only [parse_property_sales, load_df_lookup d _ c hl, exceptBindOk] at h
    have := (salesCore_props _ _ h).2
    rwa [hlen c] at this
  · intro d c out hl h
    simp only [parse_property_prices, load_df_lookup d _ c hl, exceptBindOk] at h
    have := (subsetDropna_props _ property_prices_cols _ h).2
    rwa [hlen c] at this
  · intro d c out hl h
    simp only [parse_earnings_to_house_price, load_df_lookup d _ c hl, exceptBindOk] at h
    have := (subsetDropna_props _ earnings_cols _ h).2
    rwa [hlen c] at this

/-- A concrete rental directory for the C1 witness: one per-authority row
and one aggregate row with a missing area code. -/
def c1Dir : Dir :=
  [("rental.csv",
    Csv.mk ["Area Code1", "Count of rents", "Median", "Mean"]
      [["E005", "3", "100", "110"], ["", "4", "90", "95"]])]

/-- The rental output on `c1Dir`. -/
def c1Out : DF :=
  { cols := ["la_code", "rent_count", "median_rent", "mean_rent"],
    rows := [[("la_code", some (Val.str "E005")), ("rent_count", some (Val.num 3)),
              ("median_rent", some (Val.num 100)), ("mean_rent", some (Val.num 110))]] }

/-- Witness for the amended claim C1 at a concrete rental table. -/
theorem C1_key_invariants_witness :
    Row.get [("la_code", some (Val.str "E005")), ("rent_count", some (Val.num 3)),
             ("median_rent", some (Val.num 100)), ("mean_rent", some (Val.num 110))]
        LA_CODE ≠ none ∧
    c1Out.rows.length ≤ 2 :=
  ⟨C1_key_invariants.2.1 c1Dir c1Out (by rfl) _ (by decide),
   C1_key_invariants.2.2.2.2.2.2.1 c1Dir
     (Csv.mk ["Area Code1", "Count of rents", "Median", "Mean"]
       [["E005", "3", "100", "110"], ["", "4", "90", "95"]]) c1Out (by rfl) (by rfl)⟩

/-- Claim C3: for every table and every rename spec whose keys all exist as
columns of the table, `subset_rename_df` succeeds and returns a table whose
column set is exactly the spec's value set, with the same row count, and
with the rows in the input's order (the i-th output row is the projection
of the i-th input row). -/
theorem C3_subset_rename_shape (df : DF) (nd : List (String × String))
    (h : ∀ p ∈ nd, p.1 ∈ df.cols) :
    ∃ out, subset_rename_df df nd = .ok out ∧
      out.cols.toFinset = (nd.map (fun p => p.2)).toFinset ∧
      out.rows.length = df.rows.length ∧
      out.rows = df.rows.map (fun r => nd.map (fun p => (p.2, r.get p.1))) := by
  refine ⟨_, subset_rename_ok df nd h, rfl, by simp, rfl⟩

/-- Witness for claim C3 at a concrete table and spec. -/
theorem C3_subset_rename_shape_witness :
    ∃ out,
      subset_rename_df
        { cols := ["A", "B"],
          rows := [[("A", some (Val.num 1)), ("B", some (Val.str "x"))]] }
        [("A", "a")] = .ok out ∧
      out.cols.toFinset = ([("A", "a")].map (fun p => p.2)).toFinset ∧
      out.rows.length =
        (DF.mk ["A", "B"] [[("A", some (Val.num 1)), ("B", some (Val.str "x"))]]).rows.length ∧
      out.rows =
        (DF.mk ["A", "B"] [[("A", some (Val.num 1)), ("B", some (Val.str "x"))]]).rows.map
          (fun r => [("A", "a")].map (fun p => (p.2, r.get p.1))) :=
  C3_subset_rename_shape _ _ (by decide)

lemma dedupPairsAux_sublist :
    ∀ (rows : List Row) (seen : List (Cell × Cell)),
      (dedupPairsAux rows seen).Sublist rows := by
  intro rows
  induction rows with
  | nil => intro seen; simp [dedupPairsAux]
  | cons x xs ih =>
      intro seen
      by_cases hx : wbKey x ∈ seen
      · rw [dedupPairsAux, if_pos hx]
        exact (ih seen).cons x
      · rw [dedupPairsAux, if_neg hx]
        exact (ih _).cons₂ x

lemma dedupPairsAux_not_seen :
    ∀ (rows : List Row) (seen : List (Cell × Cell)) (r : Row),
      r ∈ dedupPairsAux rows seen → wbKey r ∉ seen := by
  intro rows
  induction rows with
  | nil => intro seen r hr; simp [dedupPairsAux] at hr
  | cons x xs ih =>
      intro seen r hr
      by_cases hx : wbKey x ∈ seen
      · rw [dedupPairsAux, if_pos hx] at hr
        exact ih seen r hr
      · rw [dedupPairsAux, if_neg hx] at hr
        rcases List.mem_cons.mp hr with rfl | hr
        · exact hx
        · have h2 := ih _ r hr
          intro hmem
          exact h2 (List.mem_cons_of_mem _ hmem)

lemma nodup_map_dedupPairsAux :
    ∀ (rows : List Row) (seen : List (Cell × Cell)),
      ((dedupPairsAux rows seen).map wbKey).Nodup := by
  intro rows
  induction rows with
  | nil => intro seen; simp [dedupPairsAux]
  | cons x xs ih =>
      intro seen
      by_cases hx : wbKey x ∈ seen
      · rw [dedupPairsAux, if_pos hx]
        exact ih seen
      · rw [dedupPairsAux, if_neg hx]
        rw [List.map_cons, List.nodup_cons]
        refine ⟨?_, ih _⟩
        intro hmem
        rcases List.mem_map.mp hmem with ⟨r, hr, hkey⟩
        exact dedupPairsAux_not_seen xs _ r hr (hkey ▸ List.mem_cons_self _ _)

lemma mem_key_dedupPairsAux :
    ∀ (rows : List Row) (seen : List (Cell × Cell)) (r : Row), r ∈ rows →
      wbKey r ∈ seen ∨ wbKey r ∈ (dedupPairsAux rows seen).map wbKey := by
  intro rows
  induction rows with
  | nil => intro seen r hr; cases hr
  | cons x xs ih =>
      intro seen r hr
      by_cases hx : wbKey x ∈ seen
      · rw [dedupPairsAux, if_pos hx]
        rcases List.mem_cons.mp hr with rfl | hr
        · exact Or.inl hx
        · exact ih seen r hr
      · rw [dedupPairsAux, if_neg hx]
        rcases List.mem_cons.mp hr with rfl | hr
        · exact Or.inr (by simp)
        · rcases ih (wbKey x :: seen) r hr with hmem | hmem
          · rcases List.mem_cons.mp hmem with heq | hmem
            · exact Or.inr (by rw [List.map_cons, heq]; exact List.mem_cons_self _ _)
            · exact Or.inl hmem
          · exact Or.inr (by rw [List.map_cons]; exact List.mem_cons_of_mem _ hmem)

lemma find?_dedupPairsAux :
    ∀ (rows : List Row) (seen : List (Cell × Cell)) (r : Row),
      r ∈ dedupPairsAux rows seen →
      rows.find? (fun x => wbKey x == wbKey r) = some r := by
  intro rows
  induction rows with
  | nil => intro seen r hr; simp [dedupPairsAux] at hr
  | cons x xs ih =>
      intro seen r hr
      by_cases hx : wbKey x ∈ seen
      · rw [dedupPairsAux, if_pos hx] at hr
        have hne : wbKey r ≠ wbKey x := by
          intro heq
          exact dedupPairsAux_not_seen xs seen r hr (heq ▸ hx)
        rw [List.find?_cons]
        have hb : (wbKey x == wbKey r) = false := by
          rw [beq_eq_false_iff_ne]
          exact fun h => hne h.symm
        rw [hb]
        exact ih seen r hr
      · rw [dedupPairsAux, if_neg hx] at hr
        rcases List.mem_cons.mp hr with rfl | hr
        · rw [List.find?_cons]
          have hb : (wbKey r == wbKey r) = true := by simp
          rw [hb]
        · have h2 := dedupPairsAux_not_seen xs _ r hr
          have hne : wbKey r ≠ wbKey x := by
            intro heq
            exact h2 (heq ▸ List.mem_cons_self _ _)
          rw [List.find?_cons]
          have hb : (wbKey x == wbKey r) = false := by
            rw [beq_eq_false_iff_ne]
            exact fun h => hne h.symm
          rw [hb]
          exact ih _ r hr

lemma pivotDF_nodup_ok (df : DF) (h : (df.rows.map wbKey).Nodup) :
    ∃ out, pivotDF df = .ok out := by
  simp only [pivotDF]
  rw [if_pos h]
  exact ⟨_, rfl⟩

/-- Claim C10: before pivoting, the wellbeing transform drops duplicate
(la_code, wellbeing_measure) pairs keeping the first occurrence in row
order (the result is a sublist of the input whose key pairs are distinct,
covering every input key pair, and each kept row is the first input row
with its key pair), so the pivot's duplicate-index error branch is
unreachable (pivot always succeeds after dedup) and the pivoted output has
at most one score per key pair. -/
theorem C10_dedup_first_then_pivot (rows : List Row) :
    ((dedupPairs rows).map wbKey).Nodup ∧
    (dedupPairs rows).Sublist rows ∧
    (∀ r ∈ rows, wbKey r ∈ (dedupPairs rows).map wbKey) ∧
    (∀ r ∈ dedupPairs rows, rows.find? (fun x => wbKey x == wbKey r) = some r) ∧
    (∀ cols : List String, ∃ out, pivotDF (DF.mk cols (dedupPairs rows)) = .ok out) := by
  refine ⟨nodup_map_dedupPairsAux rows [], dedupPairsAux_sublist rows [], ?_, ?_, ?_⟩
  · intro r hr
    rcases mem_key_dedupPairsAux rows [] r hr with hmem | hmem
    · cases hmem
    · exact hmem
  · exact find?_dedupPairsAux rows []
  · intro cols
    exact pivotDF_nodup_ok _ (nodup_map_dedupPairsAux rows [])

/-- Two wellbeing rows sharing a (la_code, measure) pair, for the C10 witness. -/
def c10rows : List Row :=
  [[("la_code", some (Val.str "E1")), ("wellbeing_measure", some (Val.str "m")),
    ("wellbeing_score", some (Val.num 1))],
   [("la_code", some (Val.str "E1")), ("wellbeing_measure", some (Val.str "m")),
    ("wellbeing_score", some (Val.num 2))]]

/-- Witness for claim C10 at a concrete duplicated pair. -/
theorem C10_dedup_first_then_pivot_witness :
    wbKey (c10rows.getD 1 []) ∈ (dedupPairs c10rows).map wbKey ∧
    ∃ out, pivotDF (DF.mk ["la_code", "wellbeing_measure", "wellbeing_score"]
      (dedupPairs c10rows)) = .ok out :=
  ⟨(C10_dedup_first_then_pivot c10rows).2.2.1 (c10rows.getD 1 []) (by decide),
   (C10_dedup_first_then_pivot c10rows).2.2.2.2 ["la_code", "wellbeing_measure", "wellbeing_score"]⟩

lemma filterMapLength {α β : Type} (f : α → β) (p : β → Bool) (l : List α) :
    ((l.map f).filter p).length = (l.filter (fun a => p (f a))).length := by
  rw [List.filter_map, List.length_map]
  rfl

lemma get_enumFrom_map (f : Nat → String → Cell) (name : String) :
    ∀ (l : List String) (k : Nat), name ∈ l →
      Row.get ((List.enumFrom k l).map (fun p => (p.2, f p.1 p.2))) name
        = f (k + List.indexOf name l) name := by
  intro l
  induction l with
  | nil => intro k h; cases h
  | cons a t ih =>
      intro k h
      by_cases ha : a = name
      · subst ha
        simp only [List.enumFrom, List.map_cons]
        rw [row_get_head, List.indexOf_cons]
        simp
      · have hne : (a == name) = false := by
          rw [beq_eq_false_iff_ne]; exact ha
        have hmem : name ∈ t := by
          rcases List.mem_cons.mp h with h1 | h1
          · exact absurd h1.symm ha
          · exact h1
        simp only [List.enumFrom, List.map_cons]
        rw [row_get_cons_ne _ _ _ _ hne, ih (k + 1) hmem, List.indexOf_cons, hne]
        have harith : k + 1 + List.indexOf name t
            = k + (List.indexOf name t + 1) := by omega
        simp [harith]

lemma read_csv_get (c : Csv) (rec : List String) (name : String) (h : name ∈ c.header) :
    Row.get (c.header.enum.map (fun p =>
        (p.2, readCell (colIsNumeric c.records p.1) (rec.getD p.1 "")))) name
      = readCell (colIsNumeric c.records (List.indexOf name c.header))
          (rec.getD (List.indexOf name c.header) "") := by
  have hgen := get_enumFrom_map
    (fun j _ => readCell (colIsNumeric c.records j) (rec.getD j "")) name c.header 0 h
  simpa [List.enum] using hgen

lemma readCell_na (b : Bool) (s : String) (h : naValues.contains s = true) :
    readCell b s = none := by
  unfold readCell
  rw [if_pos h]

lemma readCell_str (s : String) (h : naValues.contains s = false) :
    readCell false s = some (Val.str s) := by
  unfold readCell
  rw [if_neg (by rw [h]; simp), if_neg (by simp)]

lemma readCell_num (s : String) (q : Rat) (hna : naValues.contains s = false)
    (hq : parseRat? s = some q) : readCell true s = some (Val.num q) := by
  unfold readCell
  rw [if_neg (by rw [hna]; simp), if_pos rfl, hq]
  rfl

lemma readCell_beq_none (records : List (List String)) (j : Nat) (rec : List String)
    (hrec : rec ∈ records) :
    (readCell (colIsNumeric records j) (rec.getD j "") == (none : Cell))
      = naValues.contains (rec.getD j "") := by
  cases hna : naValues.contains (rec.getD j "")
  · cases hnum : colIsNumeric records j
    · rw [readCell_str _ hna]
      rfl
    · have hall := hnum
      unfold colIsNumeric at hall
      rw [List.all_eq_true] at hall
      have hself := hall rec hrec
      rw [hna] at hself
      simp only [Bool.false_or] at hself
      obtain ⟨q, hq⟩ := Option.isSome_iff_exists.mp hself
      rw [readCell_num _ q hna hq]
      rfl
  · rw [readCell_na _ _ hna]
    rfl

lemma crime_proj_get_la (r : Row) :
    Row.get (crime_cols.map (fun p => (p.2, r.get p.1))) LA_CODE
      = r.get "Local Authority code" := rfl

/-- Claim C7: a crime input record whose "Local Authority code" field is an
NA token (in particular the empty string, which pandas reads as missing) is
dropped: the output row count equals the number of input records whose
la-code field is not an NA token. -/
theorem C7_crime_empty_code_dropped (d : Dir) (c : Csv) (out : DF)
    (hl : d.lookup "crime.csv" = some c)
    (h : parse_crime d = .ok out) :
    out.rows.length =
      (c.records.filter (fun rec =>
        !(naValues.contains (csvField c rec "Local Authority code")))).length := by
  simp only [parse_crime, load_df_lookup d _ c hl, exceptBindOk] at h
  simp only [crimeCore] at h
  cases hs : subset_rename_df (read_csv c) crime_cols with
  | error e => rw [hs, exceptBindErr] at h; cases h
  | ok sub =>
      rw [hs, exceptBindOk] at h
      have hmem : "Local Authority code" ∈ c.header := by
        unfold subset_rename_df at hs
        split at hs
        · next hall =>
            rw [List.all_eq_true] at hall
            have := hall ("Local Authority code", LA_CODE) (by simp [crime_cols])
            simpa using this
        · cases hs
      have hrows := dropna_ok_rows _ _ _ h
      have hsub := subset_ok_rows _ _ _ hs
      rw [hrows, hsub]
      have hread : (read_csv c).rows = c.records.map (fun rec =>
          c.header.enum.map (fun p =>
            (p.2, readCell (colIsNumeric c.records p.1) (rec.getD p.1 "")))) := rfl
      rw [hread, List.map_map, filterMapLength]
      congr 1
      refine List.filter_congr ?_
      intro rec hrec
      show (!(Row.get (crime_cols.map (fun p => (p.2, Row.get _ p.1))) LA_CODE
          == (none : Cell))) = _
      rw [crime_proj_get_la, read_csv_get c rec _ hmem,
        readCell_beq_none c.records _ rec hrec]
      rfl

/-- The crime table for the C7 witness: one real row, one row with an
empty la-code field. -/
def c7Csv : Csv :=
  { header := ["Local Authority code", "Household figures (mid-2019) - rounded to 100",
               "Total recorded crime\n (excluding fraud)",
               "Residential burglary (per 1,000 household)"],
    records := [["E003", "100", "5", "1.5"], ["", "200", "7", "2.5"]] }

/-- The C7 witness directory. -/
def c7Dir : Dir := [("crime.csv", c7Csv)]

/-- The crime output on `c7Dir`: the empty-code row is gone. -/
def c7Out : DF :=
  { cols := ["la_code", "num_households", "total_crime", "burgalry_per_household"],
    rows := [[("la_code", some (Val.str "E003")), ("num_households", some (Val.num 100)),
              ("total_crime", some (Val.num 5)),
              ("burgalry_per_household", some (Val.num (3 / 2)))]] }

/-- Witness for claim C7 at a concrete crime table. -/
theorem C7_crime_empty_code_dropped_witness :
    c7Out.rows.length =
      (c7Csv.records.filter (fun rec =>
        !(naValues.contains (csvField c7Csv rec "Local Authority code")))).length :=
  C7_crime_empty_code_dropped c7Dir c7Csv c7Out (by rfl) (by rfl)

/-- The wellbeing raw table of spec Scenario 1, under the source's raw
column names, with the Time field the transform requires. -/
def c2Csv : Csv :=
  { header := ["wellbeing-estimate", "Time", "administrative-geography",
               "measure-of-wellbeing", "V4_3"],
    records := [["average-mean", "2020-21", "E001", "happiness", "7.2"],
                ["median", "2020-21", "E001", "happiness", "8.0"]] }

/-- Scenario 1 directory. -/
def c2Dir : Dir := [("wellbeing.csv", c2Csv)]

/-- The wellbeing output on `c2Dir`: wide form, measures as columns. -/
def c2Out : DF :=
  { cols := ["la_code", "happiness"],
    rows := [[("la_code", some (Val.str "E001")),
              ("happiness", some (Val.num (36 / 5)))]] }

/-- Counterexample to claim C2 as stated: on the Scenario 1 table the kept
row does not appear as `{la_code, wellbeing_measure, wellbeing_score}` —
the transform pivots to wide form, so the output has no wellbeing_measure
or wellbeing_score column and no row maps measure "happiness" to a
wellbeing_measure field. -/
theorem C2_counterexample :
    parse_wellbeing c2Dir = .ok c2Out ∧
    "wellbeing_measure" ∉ c2Out.cols ∧
    "wellbeing_score" ∉ c2Out.cols ∧
    c2Out.rows.all
      (fun r => !(r.get "wellbeing_measure" == some (Val.str "happiness"))) = true :=
  ⟨by rfl, by decide, by decide, by rfl⟩

/-- Claim C2 (amended): on the Scenario 1 wellbeing table (raw columns
wellbeing-estimate/Time/administrative-geography/measure-of-wellbeing/V4_3,
each row carrying Time "2020-21"), exactly the rows whose wellbeing-estimate
field equals the sentinel "average-mean" (and whose Time equals "2020-21")
survive the filter, and the kept row appears in the pivoted output as the
single wide-form row {la_code: "E001", happiness: 7.2}. -/
theorem C2_wellbeing_scenario :
    ((read_csv c2Csv).rows.filter wellbeingKeep).length = 1 ∧
    ((read_csv c2Csv).rows.getD 0 []).get "wellbeing-estimate"
      = some (Val.str "average-mean") ∧
    parse_wellbeing c2Dir = .ok c2Out ∧
    c2Out.rows.length = 1 ∧
    (c2Out.rows.getD 0 []).get LA_CODE = some (Val.str "E001") ∧
    (c2Out.rows.getD 0 []).get "happiness" = some (Val.num (36 / 5)) :=
  ⟨by rfl, by rfl, by rfl, by rfl, by rfl, by rfl⟩

/-- Claim C8: every transform is deterministic — the output is a function
of the directory contents alone, so equal directory states give equal
output tables for all seven transforms. -/
theorem C8_deterministic (d1 d2 : Dir) (h : d1 = d2) :
    parse_wellbeing d1 = parse_wellbeing d2 ∧
    parse_population_age d1 = parse_population_age d2 ∧
    parse_rental_summary d1 = parse_rental_summary d2 ∧
    parse_crime d1 = parse_crime d2 ∧
    parse_property_sales d1 = parse_property_sales d2 ∧
    parse_property_prices d1 = parse_property_prices d2 ∧
    parse_earnings_to_house_price d1 = parse_earnings_to_house_price d2 := by
  subst h
  exact ⟨rfl, rfl, rfl, rfl, rfl, rfl, rfl⟩

/-- Witness for claim C8 at a concrete directory state. -/
theorem C8_deterministic_witness :
    parse_wellbeing [] = parse_wellbeing [] ∧
    parse_population_age [] = parse_population_age [] ∧
    parse_rental_summary [] = parse_rental_summary [] ∧
    parse_crime [] = parse_crime [] ∧
    parse_property_sales [] = parse_property_sales [] ∧
    parse_property_prices [] = parse_property_prices [] ∧
    parse_earnings_to_house_price [] = parse_earnings_to_house_price [] :=
  C8_deterministic [] [] rfl

/-- Claim C9: the wellbeing transform also keeps only rows whose Time field
is "2020-21": deleting from the input every row whose wellbeing-estimate is
"average-mean" but whose Time differs from "2020-21" leaves the transform's
output unchanged, so such rows never contribute to it. -/
theorem C9_wellbeing_time_filter (df : DF) :
    wellbeingCore
      (DF.mk df.cols (df.rows.filter (fun r =>
        !(r.get "wellbeing-estimate" == some (Val.str "average-mean") &&
          !(r.get "Time" == some (Val.str "2020-21")))))) = wellbeingCore df := by
  simp only [wellbeingCore, wellbeingFilter]
  have hr : (df.rows.filter (fun r =>
      !(r.get "wellbeing-estimate" == some (Val.str "average-mean") &&
        !(r.get "Time" == some (Val.str "2020-21"))))).filter wellbeingKeep
      = df.rows.filter wellbeingKeep := by
    rw [List.filter_filter]
    refine List.filter_congr ?_
    intro r _
    simp only [wellbeingKeep]
    cases hE : (r.get "wellbeing-estimate" == some (Val.str "average-mean")) <;>
      cases hT : (r.get "Time" == some (Val.str "2020-21")) <;> rfl
  split
  · rw [hr]
  · rfl

lemma sum_map_range (f : Nat → Rat) (n : Nat) :
    ((List.range n).map f).sum = ∑ a in Finset.range n, f a := by
  induction n with
  | zero => simp
  | succ n ih => simp [List.range_succ, Finset.sum_range_succ, ih]

lemma sum_map_range' (f : Nat → Rat) (n : Nat) : ∀ a : Nat,
    ((List.range' a n).map f).sum = ∑ x in Finset.Ico a (a + n), f x := by
  induction n with
  | zero => simp
  | succ n ih =>
      intro a
      have h1 : a + (n + 1) = (a + n) + 1 := by omega
      rw [List.range'_concat, List.map_append, List.sum_append, ih a, h1,
        Finset.sum_Ico_succ_top (Nat.le_add_right a n)]
      simp

lemma addAgeGroups_ok_rows (df out : DF) (h : addAgeGroups df = .ok out) :
    out.rows = df.rows.map (fun r =>
      ("child", some (Val.num (rowSum r ageChildCols))) ::
      ("adult", some (Val.num (rowSum r ageAdultCols))) ::
      ("elderly", some (Val.num (rowSum r ageElderlyCols))) :: r) := by
  unfold addAgeGroups at h
  split at h
  · cases h; rfl
  · cases h

/-- Claim C5: for every row of the population-by-age table, the derived
child value is exactly the sum of the per-year age columns 0 through 18,
the adult value exactly the sum of columns 19 through 64, and the elderly
value exactly the sum of columns 65 through 89 plus the "90+" column. -/
theorem C5_age_buckets (df out : DF) (h : addAgeGroups df = .ok out)
    (i : Nat) (hi : i < df.rows.length) :
    (out.rows.getD i []).get "child" =
      some (Val.num (∑ a in Finset.range 19,
        cellNum ((df.rows.getD i []).get (toString a)))) ∧
    (out.rows.getD i []).get "adult" =
      some (Val.num (∑ a in Finset.Icc 19 64,
        cellNum ((df.rows.getD i []).get (toString a)))) ∧
    (out.rows.getD i []).get "elderly" =
      some (Val.num ((∑ a in Finset.Icc 65 89,
        cellNum ((df.rows.getD i []).get (toString a)))
        + cellNum ((df.rows.getD i []).get "90+"))) := by
  have hrows := addAgeGroups_ok_rows df out h
  set g : Row → Row := fun r =>
    ("child", some (Val.num (rowSum r ageChildCols))) ::
    ("adult", some (Val.num (rowSum r ageAdultCols))) ::
    ("elderly", some (Val.num (rowSum r ageElderlyCols))) :: r with hg
  have hout : out.rows.getD i [] = g (df.rows.getD i []) := by
    rw [hrows, List.getD_eq_getElem?_getD, List.getElem?_map,
      List.getElem?_eq_getElem hi]
    simp [List.getD_eq_getElem?_getD, List.getElem?_eq_getElem hi]
  set r := df.rows.getD i [] with hrdef
  have hchild : rowSum r ageChildCols =
      ∑ a in Finset.range 19, cellNum (r.get (toString a)) := by
    rw [rowSum, ageChildCols, List.map_map]
    exact sum_map_range _ 19
  have hadult : rowSum r ageAdultCols =
      ∑ a in Finset.Icc 19 64, cellNum (r.get (toString a)) := by
    rw [rowSum, ageAdultCols, List.map_map, sum_map_range' _ 46 19]
    have hico : Finset.Ico (19 : ℕ) (19 + 46) = Finset.Icc 19 64 := by decide
    rw [hico]
    rfl
  have helderly : rowSum r ageElderlyCols =
      (∑ a in Finset.Icc 65 89, cellNum (r.get (toString a)))
        + cellNum (r.get "90+") := by
    rw [rowSum, ageElderlyCols, List.map_append,
      List.sum_append, List.map_map, sum_map_range' _ 25 65]
    have hico : Finset.Ico (65 : ℕ) (65 + 25) = Finset.Icc 65 89 := by decide
    rw [hico]
    simp [Function.comp]
  refine ⟨?_, ?_, ?_⟩
  · rw [hout, hg, row_get_head, hchild]
  · rw [hout, hg, row_get_cons_ne _ _ _ _ (by decide), row_get_head, hadult]
  · rw [hout, hg, row_get_cons_ne _ _ _ _ (by decide),
      row_get_cons_ne _ _ _ _ (by decide), row_get_head, helderly]

/-- The population row of spec Scenario 2: ages 0..18 sum to 50 (all in
column "0"), 19..64 sum to 200, 65..89 plus "90+" sum to 30. -/
def c5df : DF :=
  { cols := ageChildCols ++ ageAdultCols ++ ageElderlyCols,
    rows := [[("0", some (Val.num 50)), ("19", some (Val.num 200)),
              ("65", some (Val.num 25)), ("90+", some (Val.num 5))]] }

/-- The derived table on `c5df`. -/
def c5out : DF :=
  { cols := (ageChildCols ++ ageAdultCols ++ ageElderlyCols) ++
      ["child", "adult", "elderly"],
    rows := [[("child", some (Val.num 50)), ("adult", some (Val.num 200)),
              ("elderly", some (Val.num 30)),
              ("0", some (Val.num 50)), ("19", some (Val.num 200)),
              ("65", some (Val.num 25)), ("90+", some (Val.num 5))]] }

set_option maxRecDepth 100000 in
/-- Witness for claim C5 at the Scenario 2 row. -/
theorem C5_age_buckets_witness :
    0 < c5df.rows.length ∧
    (c5out.rows.getD 0 []).get "child" =
      some (Val.num (∑ a in Finset.range 19,
        cellNum ((c5df.rows.getD 0 []).get (toString a)))) :=
  ⟨by decide, (C5_age_buckets c5df c5out (by rfl) 0 (by decide)).1⟩

lemma sales_proj_get_la (x : Row) :
    Row.get (property_sales_cols.map (fun p => (p.2, x.get p.1))) LA_CODE
      = x.get "Local authority code" := rfl

lemma sales_proj_get_sold (x : Row) :
    Row.get (property_sales_cols.map (fun p => (p.2, x.get p.1))) "num_sold"
      = x.get "Year ending Jun 2021" := rfl

lemma map_get_mk_keys (v : Cell → Cell) (ks : List Cell) :
    (ks.map (fun k => [(LA_CODE, k), ("num_sold", v k)])).map
      (fun r => Row.get r LA_CODE) = ks := by
  rw [List.map_map]
  have hfun : ((fun r => Row.get r LA_CODE) ∘ fun k : Cell =>
      [(LA_CODE, k), ("num_sold", v k)]) = fun k : Cell => k := by
    funext k
    simp only [Function.comp_apply]
    exact row_get_head _ _ _
  rw [hfun]
  simp

lemma sales_sum_eq (rows : List Row) (k : Cell) :
    (((rows.map (fun x => property_sales_cols.map (fun p => (p.2, x.get p.1)))).filter
        (fun r => Row.get r LA_CODE == k)).map
      (fun r => cellNum (Row.get r "num_sold"))).sum
    = ((rows.filter (fun x => Row.get x "Local authority code" == k)).map
        (fun x => cellNum (Row.get x "Year ending Jun 2021"))).sum := by
  rw [List.filter_map, List.map_map]
  have hpred : ∀ x ∈ rows,
      ((fun r => Row.get r LA_CODE == k) ∘
        (fun x : Row => property_sales_cols.map (fun p => (p.2, x.get p.1)))) x
      = (Row.get x "Local authority code" == k) := by
    intro x _
    simp only [Function.comp_apply]
    rw [sales_proj_get_la]
  rw [List.filter_congr hpred]
  refine congrArg List.sum ?_
  refine List.map_congr_left ?_
  intro x _
  simp only [Function.comp_apply]
  rw [sales_proj_get_sold]

/-- Claim C6: on a property-sales table all of whose rows carry a non-null
la code, the transform sums num_sold grouped by la_code: the output has one
row per distinct la code (its la_code column is duplicate-free and covers
exactly the input's la codes), and each output row's num_sold is the sum of
the num_sold values of the input rows with that la code. -/
theorem C6_sales_grouping (df out : DF) (h : salesCore df = .ok out)
    (hnn : ∀ x ∈ df.rows, Row.get x "Local authority code" ≠ none) :
    ((out.rows.map (fun r => Row.get r LA_CODE)).Nodup) ∧
    (∀ k : Cell, (∃ r ∈ out.rows, Row.get r LA_CODE = k)
        ↔ (∃ x ∈ df.rows, Row.get x "Local authority code" = k)) ∧
    (∀ r ∈ out.rows, Row.get r "num_sold" = some (Val.num
      (((df.rows.filter (fun x => Row.get x "Local authority code" == Row.get r LA_CODE)).map
          (fun x => cellNum (Row.get x "Year ending Jun 2021"))).sum))) := by
  simp only [salesCore] at h
  cases hs : subset_rename_df df property_sales_cols with
  | error e => rw [hs, exceptBindErr] at h; cases h
  | ok sub =>
  rw [hs, exceptBindOk] at h
  cases hd : dropna sub LA_CODE with
  | error e => rw [hd, exceptBindErr] at h; cases h
  | ok sub2 =>
  rw [hd, exceptBindOk] at h
  have hout : out = groupbySum LA_CODE "num_sold" sub2 := by cases h; rfl
  subst hout
  have hsubrows : sub.rows =
      df.rows.map (fun x => property_sales_cols.map (fun p => (p.2, x.get p.1))) :=
    subset_ok_rows _ _ _ hs
  have hnn2 : ∀ r ∈ sub.rows, (Row.get r LA_CODE == (none : Cell)) = false := by
    intro r hr
    rw [hsubrows] at hr
    rcases List.mem_map.mp hr with ⟨x, hx, rfl⟩
    rw [sales_proj_get_la]
    cases hval : Row.get x "Local authority code" with
    | none => exact absurd hval (hnn x hx)
    | some v => rfl
  have hsub2rows : sub2.rows = sub.rows := by
    rw [dropna_ok_rows _ _ _ hd]
    apply List.filter_eq_self.mpr
    intro r hr
    rw [hnn2 r hr]
    rfl
  have hkeptL : (df.rows.map (fun x =>
        property_sales_cols.map (fun p => (p.2, x.get p.1)))).filter
      (fun r => !(Row.get r LA_CODE == (none : Cell)))
      = df.rows.map (fun x => property_sales_cols.map (fun p => (p.2, x.get p.1))) := by
    apply List.filter_eq_self.mpr
    intro r hr
    rw [← hsubrows] at hr
    rw [hnn2 r hr]
    rfl
  simp only [groupbySum, hsub2rows, hsubrows, hkeptL]
  have hgetla : ∀ (k : Cell) (v : Cell),
      Row.get [(LA_CODE, k), ("num_sold", v)] LA_CODE = k := by
    intro k v
    exact row_get_head _ _ _
  have hgetsold : ∀ (k : Cell) (v : Cell),
      Row.get [(LA_CODE, k), ("num_sold", v)] "num_sold" = v := by
    intro k v
    rw [row_get_cons_ne _ _ _ _ (by decide), row_get_head]
  have hmemkeys : ∀ k : Cell,
      (k ∈ (firstDedup
        ((df.rows.map (fun x => property_sales_cols.map (fun p => (p.2, x.get p.1)))).map
          (fun r => Row.get r LA_CODE))).insertionSort cellLe)
      ↔ ∃ x ∈ df.rows, Row.get x "Local authority code" = k := by
    intro k
    rw [List.mem_insertionSort, mem_firstDedup]
    constructor
    · intro hk
      rcases List.mem_map.mp hk with ⟨r, hr, hget⟩
      rcases List.mem_map.mp hr with ⟨x, hx, rfl⟩
      rw [sales_proj_get_la] at hget
      exact ⟨x, hx, hget⟩
    · rintro ⟨x, hx, hget⟩
      refine List.mem_map.mpr
        ⟨property_sales_cols.map (fun p => (p.2, x.get p.1)), ?_, ?_⟩
      · exact List.mem_map_of_mem _ hx
      · rw [sales_proj_get_la]
        exact hget
  refine ⟨?_, ?_, ?_⟩
  · rw [map_get_mk_keys]
    exact ((List.perm_insertionSort cellLe _).symm).nodup (nodup_firstDedup _)
  · intro k
    constructor
    · rintro ⟨r, hr, hget⟩
      rcases List.mem_map.mp hr with ⟨k2, hk2, rfl⟩
      rw [hgetla] at hget
      subst hget
      exact (hmemkeys _).mp hk2
    · intro hx
      refine ⟨_, List.mem_map_of_mem _ ((hmemkeys k).mpr hx), hgetla _ _⟩
  · intro r hr
    rcases List.mem_map.mp hr with ⟨k, hk, rfl⟩
    rw [hgetsold, hgetla]
    rw [sales_sum_eq]

/-- The property-sales table of spec Scenario 4. -/
def c6df : DF :=
  { cols := ["Local authority code", "Ward code", "Year ending Jun 2021"],
    rows := [[("Local authority code", some (Val.str "E002")),
              ("Ward code", some (Val.str "W1")),
              ("Year ending Jun 2021", some (Val.num 10))],
             [("Local authority code", some (Val.str "E002")),
              ("Ward code", some (Val.str "W2")),
              ("Year ending Jun 2021", some (Val.num 15))]] }

/-- The aggregated output on `c6df`. -/
def c6out : DF :=
  { cols := ["la_code", "num_sold"],
    rows := [[("la_code", some (Val.str "E002")), ("num_sold", some (Val.num 25))]] }

/-- Witness for claim C6 at the Scenario 4 table: the two E002 rows become
the single output row with num_sold 25. -/
theorem C6_sales_grouping_witness :
    ((c6out.rows.map (fun r => r.get LA_CODE)).Nodup) ∧
    (c6out.rows.getD 0 []).get "num_sold" = some (Val.num
      (((c6df.rows.filter (fun x =>
          x.get "Local authority code" == (c6out.rows.getD 0 []).get LA_CODE)).map
        (fun x => cellNum (x.get "Year ending Jun 2021"))).sum)) ∧
    (c6out.rows.getD 0 []).get "num_sold" = some (Val.num 25) :=
  ⟨(C6_sales_grouping c6df c6out (by rfl) (by decide)).1,
   (C6_sales_grouping c6df c6out (by rfl) (by decide)).2.2 _ (by decide),
   by rfl⟩

/-- Claim C4: a rename spec key absent from the table's columns makes
`subset_rename_df` fail with the MissingColumn-class error (pandas
KeyError) and return no partial table, and for each of the seven
transforms such a failure propagates to the caller (the transform returns
an error rather than silently skipping the column). -/
theorem C4_missing_column_fails :
    (∀ (df : DF) (nd : List (String × String)),
        (∃ p ∈ nd, p.1 ∉ df.cols) → subset_rename_df df nd = .error "KeyError") ∧
    (∀ (d : Dir) (c : Csv), d.lookup "wellbeing.csv" = some c →
        (∃ p ∈ wellbeing_cols, p.1 ∉ c.header) →
        ∃ e, parse_wellbeing d = .error e) ∧
    (∀ (d : Dir) (c : Csv), d.lookup "population_by_age.csv" = some c →
        (∃ p ∈ population_cols, p.1 ∉ c.header ∧ p.1 ∉ ["child", "adult", "elderly"]) →
        ∃ e, parse_population_age d = .error e) ∧
    (∀ (d : Dir) (c : Csv), d.lookup "rental.csv" = some c →
        (∃ p ∈ rental_cols, p.1 ∉ c.header) →
        ∃ e, parse_rental_summary d = .error e) ∧
    (∀ (d : Dir) (c : Csv), d.lookup "crime.csv" = some c →
        (∃ p ∈ crime_cols, p.1 ∉ c.header) →
        ∃ e, parse_crime d = .error e) ∧
    (∀ (d : Dir) (c : Csv), d.lookup "property_sales.csv" = some c →
        (∃ p ∈ property_sales_cols, p.1 ∉ c.header) →
        ∃ e, parse_property_sales d = .error e) ∧
    (∀ (d : Dir) (c : Csv), d.lookup "house_prices.csv" = some c →
        (∃ p ∈ property_prices_cols, p.1 ∉ c.header) →
        ∃ e, parse_property_prices d = .error e) ∧
    (∀ (d : Dir) (c : Csv), d.lookup "earnings_price_ratio.csv" = some c →
        (∃ p ∈ earnings_cols, p.1 ∉ c.header) →
        ∃ e, parse_earnings_to_house_price d = .error e) := by
  refine ⟨subset_rename_missing, ?_, ?_, ?_, ?_, ?_, ?_, ?_⟩
  · intro d c hl hp
    simp only [parse_wellbeing, load_df_lookup d _ c hl]
    cases hwf : wellbeingFilter (read_csv c) with
    | error e => exact ⟨e, by simp [wellbeingCore, hwf, exceptBindOk, exceptBindErr]⟩
    | ok df' =>
        refine ⟨"KeyError", ?_⟩
        have hcols : df'.cols = c.header := wellbeingFilter_cols _ _ hwf
        have herr : subset_rename_df df' wellbeing_cols = .error "KeyError" := by
          refine subset_rename_missing _ _ ?_
          obtain ⟨p, hmem, hnc⟩ := hp
          exact ⟨p, hmem, by rw [hcols]; exact hnc⟩
        simp [wellbeingCore, hwf, herr, exceptBindOk, exceptBindErr]
  · intro d c hl hp
    simp only [parse_population_age, load_df_lookup d _ c hl]
    cases hag : addAgeGroups (read_csv c) with
    | error e => exact ⟨e, by simp [populationCore, hag, exceptBindOk, exceptBindErr, Except.map_error]⟩
    | ok df' =>
        refine ⟨"KeyError", ?_⟩
        have hcols := addAgeGroups_cols _ _ hag
        have herr : subset_rename_df df' population_cols = .error "KeyError" := by
          refine subset_rename_missing _ _ ?_
          obtain ⟨p, hmem, hnc1, hnc2⟩ := hp
          refine ⟨p, hmem, ?_⟩
          rw [hcols]
          intro hin
          rcases List.mem_append.mp hin with hin | hin
          · exact hnc1 hin
          · exact hnc2 (List.mem_filter.mp hin).1
        simp [populationCore, hag, herr, exceptBindOk, exceptBindErr, Except.map_error]
  · intro d c hl hp
    refine ⟨"KeyError", ?_⟩
    have herr := subset_rename_missing (read_csv c) rental_cols hp
    simp only [parse_rental_summary, load_df_lookup d _ c hl]
    simp [rentalCore, herr, exceptBindOk, exceptBindErr]
  · intro d c hl hp
    refine ⟨"KeyError", ?_⟩
    have herr := subset_rename_missing (read_csv c) crime_cols hp
    simp only [parse_crime, load_df_lookup d _ c hl]
    simp [crimeCore, herr, exceptBindOk, exceptBindErr]
  · intro d c hl hp
    refine ⟨"KeyError", ?_⟩
    have herr := subset_rename_missing (read_csv c) property_sales_cols hp
    simp only [parse_property_sales, load_df_lookup d _ c hl]
    simp [salesCore, herr, exceptBindOk, exceptBindErr]
  · intro d c hl hp
    refine ⟨"KeyError", ?_⟩
    have herr := subset_rename_missing (read_csv c) property_prices_cols hp
    simp only [parse_property_prices, load_df_lookup d _ c hl]
    simp [pricesCore, herr, exceptBindOk, exceptBindErr]
  · intro d c hl hp
    refine ⟨"KeyError", ?_⟩
    have herr := subset_rename_missing (read_csv c) earnings_cols hp
    simp only [parse_earnings_to_house_price, load_df_lookup d _ c hl]
    simp [earningsCore, herr, exceptBindOk, exceptBindErr]

/-- Witness for claim C4: a concrete spec key absent from a concrete table,
and a crime file lacking three of the referenced columns. -/
theorem C4_missing_column_fails_witness :
    subset_rename_df (DF.mk ["X"] []) [("Y", "y")] = .error "KeyError" ∧
    ∃ e, parse_crime [("crime.csv", Csv.mk ["Local Authority code"] [])] = .error e :=
  ⟨C4_missing_column_fails.1 _ _ ⟨("Y", "y"), by decide, by decide⟩,
   C4_missing_column_fails.2.2.2.2.1 _ (Csv.mk ["Local Authority code"] []) (by decide)
     ⟨("Household figures (mid-2019) - rounded to 100", "num_households"),
      by decide, by decide⟩⟩
